import Mathlib

/-!
Shallow embedding of the two command-line utilities of the analysis-app
repository: the MiDaS depth-map tool (`server/services/midas_depth.py`)
and the OpenCLIP embedding tool (`server/services/openclip_embeddings.py`).

External primitives (the pretrained models, OpenCV/PIL image decoding,
numpy reductions, the filesystem) are modelled as oracle parameters: a
step of Python code that may raise is a `Step` value, an image decode
that may return `None`/raise is an `Option`/`Step`, and a file written
to disk is recorded as a `SavedFile` value.  The glue logic itself —
branching, normalization arithmetic, batch iteration, result
dictionaries, exit codes — is translated directly from the source.
-/

set_option maxRecDepth 16384

namespace AnalysisApp

/-- Outcome of one Python step that may raise an exception: either a
value, or an exception carrying the text of `str(e)`. -/
inductive Step (α : Type) where
  | ok (a : α)
  | exn (msg : String)
deriving DecidableEq

/-- Sequencing of two fallible Python steps: an exception in the first
short-circuits (it propagates to the enclosing `except` handler). -/
def Step.bind {α β : Type} : Step α → (α → Step β) → Step β
  | .ok a, f => f a
  | .exn m, _ => .exn m

/-- A file written to disk, as observed by a caller: destination path,
raster width and height, PIL image mode, save format, and the pixel
payload (flattened, row-major). -/
structure SavedFile where
  path : String
  width : Nat
  height : Nat
  mode : String
  format : String
  pixels : List Nat
deriving DecidableEq

/-- Models `numpy.ndarray.min()` for a flattened array, as used on the raw
depth prediction.  numpy raises on an empty array; the caller guards
that case separately, so the `[]` value here is never relied upon. -/
def listMin : List ℚ → ℚ
  | [] => 0
  | x :: xs => xs.foldl min x

/-- Models `numpy.ndarray.max()` for a flattened array. -/
def listMax : List ℚ → ℚ
  | [] => 0
  | x :: xs => xs.foldl max x

/-- Truncation toward zero, the rounding used by a C-style
float-to-integer cast (`ndarray.astype(np.uint8)` truncates before
wrapping). -/
def truncQ (x : ℚ) : ℤ := if 0 ≤ x then ⌊x⌋ else -⌊-x⌋

/-- Models `astype(np.uint8)` applied to one float value: truncate toward
zero, then wrap modulo 2^8. -/
def toUint8 (x : ℚ) : ℕ := ((truncQ x) % 256).toNat

/-- Lines 84–93 of `midas_depth.py`: rescale the raw depth prediction
to 0–255 and cast to `uint8`.  When `depth_max > depth_min` fails (a
constant prediction) the array is replaced by `np.zeros_like`, avoiding
the division by zero. -/
def normalize_depth (depth_map : List ℚ) : List ℕ :=
  let depth_min := listMin depth_map
  let depth_max := listMax depth_map
  let depth_normalized : List ℚ :=
    if depth_min < depth_max then
      depth_map.map (fun d => (d - depth_min) / (depth_max - depth_min))
    else
      depth_map.map (fun _ => 0)
  depth_normalized.map (fun x => toUint8 (x * 255))

/-- Test for `os.path.dirname(p) == ""`: on POSIX paths the dirname
is empty exactly when the path contains no slash.  In that case
`os.makedirs("", exist_ok=True)` deterministically raises
`FileNotFoundError` — it falls through to `mkdir("")`, which fails,
and `isdir("")` is false so `exist_ok` does not suppress it.  This is
pure library behavior, independent of the filesystem, so it is
modelled as a branch rather than left to the save oracle. -/
def dirnameEmpty (p : String) : Bool := decide ('/' ∉ p.toList)

/-- Oracle outcomes for the external steps of one
`generate_depth_map` call: `cv2.imread` (`none` when the image cannot
be loaded, otherwise the raster's `(height, width)`), the
transform/forward-pass/interpolate pipeline (which either raises or
yields the depth prediction already resized to the input's spatial
dimensions, flattened), and the `os.makedirs`-on-a-nonempty-dirname
plus `PIL` save step (the empty-dirname makedirs failure is
deterministic and modelled separately, see `dirnameEmpty`). -/
structure DepthEnv where
  imread : Option (Nat × Nat)
  modelRun : Step (List ℚ)
  save : Step Unit

/-- Result dictionary of `MiDaSDepthGenerator.generate_depth_map`:
either the success record (input, output, pre-normalization depth
range, model identifier) or an `{"error": ...}` record. -/
inductive SingleResult where
  | success (input output : String) (depthMin depthMax : ℚ) (model : String)
  | error (msg : String)
deriving DecidableEq

/-- Predicate `r["result"].get("success", False)` of the batch loop: only the
success record carries a `success` key. -/
def isSuccessResult : SingleResult → Bool
  | .success _ _ _ _ _ => true
  | .error _ => false

/-- Embeds `MiDaSDepthGenerator.generate_depth_map` (lines 48–109 of
`midas_depth.py`).  The whole body sits in a `try`/`except Exception`
block, so every oracle exception is converted to an `{"error": ...}`
dictionary.  Returns the result dictionary together with the list of
files written.  numpy's `min` raises on a zero-size prediction, which
the same handler turns into an error record; likewise line 96's
`os.makedirs(os.path.dirname(output_path), exist_ok=True)`
deterministically raises when the output path has no directory
component, before any save is attempted. -/
def generate_depth_map (env : DepthEnv) (input_path output_path : String) :
    SingleResult × List SavedFile :=
  match env.imread with
  | none => (.error ("Could not load image: " ++ input_path), [])
  | some (h, w) =>
    match env.modelRun with
    | .exn m => (.error ("Depth map generation failed: " ++ m), [])
    | .ok depth_map =>
      if depth_map.isEmpty then
        (.error ("Depth map generation failed: " ++
          "zero-size array to reduction operation minimum which has no identity"), [])
      else
        let depth_min := listMin depth_map
        let depth_max := listMax depth_map
        let depth_uint8 := normalize_depth depth_map
        if dirnameEmpty output_path then
          (.error ("Depth map generation failed: " ++
            "[Errno 2] No such file or directory: ''"), [])
        else
          match env.save with
          | .exn m => (.error ("Depth map generation failed: " ++ m), [])
          | .ok _ =>
            (.success input_path output_path depth_min depth_max "MiDaS DPT-Hybrid",
             [⟨output_path, w, h, "L", "PNG", depth_uint8⟩])

/-- A directory entry as `pathlib` exposes it to the batch loop: the
final component's stem and suffix (`Path.name == stem ++ suffix`; the
suffix is the final dot-extension, or `""` when there is none). -/
structure DirEntry where
  stem : String
  suffix : String
deriving DecidableEq

/-- Models `Path.name` of a directory entry. -/
def DirEntry.name (f : DirEntry) : String := f.stem ++ f.suffix

/-- Python `str.lower()`, applied characterwise (ASCII extensions are
all that occur here). -/
def lowerStr (s : String) : String := ⟨s.toList.map Char.toLower⟩

/-- The recognized image extensions of `process_batch` (line 129). -/
def image_extensions : List String := [".png", ".jpg", ".jpeg", ".bmp", ".tiff"]

/-- Test `f.suffix.lower() in image_extensions` (lines 130–131). -/
def isImageFile (f : DirEntry) : Bool := decide (lowerStr f.suffix ∈ image_extensions)

/-- Batch result dictionary of `process_batch`: either the aggregate
report (`batch_results`, `total_processed`, `success_count`) or an
`{"error": ...}` record. -/
inductive BatchResult where
  | report (batch_results : List (String × SingleResult))
      (total_processed success_count : Nat)
  | error (msg : String)
deriving DecidableEq

/-- Embeds `MiDaSDepthGenerator.process_batch` (lines 111–153 of
`midas_depth.py`).  `dirExists` is the outcome of
`input_path.exists()`, `listing` the outcome of `input_path.iterdir()`,
and `envOf` gives the oracle outcomes of the per-file
`generate_depth_map` call.  Returns the result dictionary together
with every file written. -/
def process_batch (dirExists : Bool) (listing : List DirEntry)
    (envOf : DirEntry → DepthEnv) (input_dir output_dir : String) :
    BatchResult × List SavedFile :=
  if dirExists = false then
    (.error ("Input directory does not exist: " ++ input_dir), [])
  else
    let image_files := listing.filter isImageFile
    if image_files.isEmpty then
      (.error "No image files found in input directory", [])
    else
      let processed := image_files.map (fun f =>
        let output_file := output_dir ++ "/depth_" ++ f.stem ++ ".png"
        (f.name, generate_depth_map (envOf f) (input_dir ++ "/" ++ f.name) output_file))
      (.report (processed.map (fun p => (p.1, p.2.1)))
        processed.length
        ((processed.map (fun p => p.2.1)).countP isSuccessResult),
       (processed.map (fun p => p.2.2)).flatten)

/-- Result dictionary of `create_fallback_depth_map`. -/
inductive FallbackResult where
  | success (input output : String) (model : String)
  | error (msg : String)
deriving DecidableEq

/-- Oracle outcomes for one `create_fallback_depth_map` call:
`cv2.imread(..., IMREAD_GRAYSCALE)` (`none` on failure, otherwise the
raster's `(height, width)`), the pixels produced by the
Canny/invert/GaussianBlur pipeline, and the `makedirs` + `imwrite`
step. -/
structure FallbackEnv where
  imreadGray : Option (Nat × Nat)
  outPixels : List Nat
  save : Step Unit

/-- Embeds `create_fallback_depth_map` (lines 155–188 of `midas_depth.py`):
edge-detection pseudo-depth, used only when the MiDaS dependency chain
is unavailable.  The body sits in a `try`/`except Exception` block;
line 177 runs the same `os.makedirs(os.path.dirname(output_path))`
that deterministically raises on an output path with no directory
component. -/
def create_fallback_depth_map (env : FallbackEnv) (input_path output_path : String) :
    FallbackResult × List SavedFile :=
  match env.imreadGray with
  | none => (.error ("Could not load image: " ++ input_path), [])
  | some (h, w) =>
    if dirnameEmpty output_path then
      (.error ("Fallback depth generation failed: " ++
        "[Errno 2] No such file or directory: ''"), [])
    else
      match env.save with
      | .exn m => (.error ("Fallback depth generation failed: " ++ m), [])
      | .ok _ =>
        (.success input_path output_path "Fallback Edge-based Depth Simulation",
         [⟨output_path, w, h, "L", "PNG", env.outPixels⟩])

/-- The parsed command line of the depth tool: `--input` (required),
`--output` (optional), `--batch` (flag). -/
structure DepthArgs where
  input : String
  output : Option String
  batch : Bool

/-- Models `os.path.dirname` / `Path.parent` restricted to what the default
output paths need: everything before the last `/` of the path. -/
def pathParent (p : String) : String :=
  String.intercalate "/" ((p.splitOn "/").dropLast)

/-- Index of the last `.` in a character list, when any. -/
def rfindDot : List Char → Option Nat
  | [] => none
  | c :: cs =>
    match rfindDot cs with
    | some n => some (n + 1)
    | none => if c = '.' then some 0 else none

/-- Models `Path.stem` of a final path component: the name with its suffix
removed, where the suffix is `name[i:]` for the last dot at a position
`i` with `0 < i < len(name) - 1`. -/
def stemOfName (name : String) : String :=
  let cs := name.toList
  match rfindDot cs with
  | some i => if 0 < i ∧ i + 1 < cs.length then ⟨cs.take i⟩ else name
  | none => name

/-- The auto-generated single-file output path of the depth tool:
`<parent>/depthmaps/depth_<stem>.png` (lines 212–213 and 221). -/
def default_depth_output (input : String) : String :=
  pathParent input ++ "/depthmaps/depth_" ++
    stemOfName ((input.splitOn "/").getLastD "") ++ ".png"

/-- The single JSON document printed by the depth tool's `main`. -/
inductive MainResult where
  | single (r : SingleResult)
  | batch (r : BatchResult)
  | fallbackSingle (r : FallbackResult)
  | error (msg : String)
deriving DecidableEq

/-- Oracle outcomes for one run of the depth tool's `main`:
`MiDaSDepthGenerator.__init__` (model download/load, which raises on
failure), the per-call environments of the single-image, batch and
fallback paths. -/
structure DepthMainEnv where
  initOk : Step Unit
  singleEnv : DepthEnv
  batchDirExists : Bool
  batchListing : List DirEntry
  batchEnvOf : DirEntry → DepthEnv
  fbEnv : FallbackEnv

/-- Embeds `main` of `midas_depth.py` (lines 190–229): dispatch on
dependency availability and `--batch`, with the outer
`try`/`except Exception` that prints a generic error and exits 1.
Returns the printed result, the files written, and the exit code. -/
def depth_main (deps_available : Bool) (args : DepthArgs) (env : DepthMainEnv) :
    MainResult × List SavedFile × Nat :=
  if deps_available then
    match env.initOk with
    | .exn m => (.error ("Script execution failed: " ++ m), [], 1)
    | .ok _ =>
      if args.batch then
        let output_dir := args.output.getD (pathParent args.input ++ "/depthmaps")
        let r := process_batch env.batchDirExists env.batchListing env.batchEnvOf
          args.input output_dir
        (.batch r.1, r.2, 0)
      else
        let output_path := args.output.getD (default_depth_output args.input)
        let r := generate_depth_map env.singleEnv args.input output_path
        (.single r.1, r.2, 0)
  else
    if args.batch then
      (.error "Batch mode not supported in fallback mode", [], 0)
    else
      let output_path := args.output.getD (default_depth_output args.input)
      let r := create_fallback_depth_map env.fbEnv args.input output_path
      (.fallbackSingle r.1, r.2, 0)

/-- Python `str.startswith`, by character-list comparison. -/
def pyStartsWith (s p : String) : Bool :=
  decide (s.toList.take p.toList.length = p.toList)

/-- The first step of `breakAt`: split a character list at the first
occurrence of `c`, when any, dropping the separator. -/
def breakAt (c : Char) : List Char → Option (List Char × List Char)
  | [] => none
  | x :: xs =>
    if x = c then some ([], xs)
    else
      match breakAt c xs with
      | none => none
      | some p => some (x :: p.1, p.2)

/-- Python `s.split(',', 1)` followed by the two-element unpack of
line 62: `some (header, encoded)` when the string contains a comma,
`none` when the unpack would raise `ValueError`. -/
def splitFirstComma (s : String) : Option (String × String) :=
  match breakAt ',' s.toList with
  | none => none
  | some p => some (⟨p.1⟩, ⟨p.2⟩)

/-- Oracle bundle for one embedding-tool process: the abstract image
type, `base64.b64decode` (raising on malformed input),
`PIL.Image.open` on an in-memory byte buffer and on a filesystem path
(each followed by `convert('RGB')`), the preprocess + `encode_image`
pipeline of the ViT-H/14 model (whose feature dimension is 1024), the
`np.array(image.resize((224, 224))).tobytes()` serialization, the
`int(hashlib.md5(...).hexdigest()[:8], 16)` content seed, and numpy's
global pseudo-random generator (`np.random.seed` /
`np.random.normal(0, 1, 1024)`), modelled as explicit state. -/
structure CLIPEnv : Type 1 where
  Img : Type
  b64decode : String → Step (List Nat)
  openBytes : List Nat → Step Img
  openFile : String → Step Img
  encode : Img → Fin 1024 → ℝ
  resizedBytes : Img → List Nat
  md5seedOf : List Nat → Nat
  Rng : Type
  seed : Nat → Rng
  normal1024 : Rng → (Fin 1024 → ℝ) × Rng

/-- Lines 58–71 of `openclip_embeddings.py`: decode the input string
to an image.  A `data:image`-prefixed input is split at its first
comma and the payload base64-decoded; an input with a leading `/` or
`./` is opened as a filesystem path; everything else is decoded as raw
base64. -/
def load_image (env : CLIPEnv) (s : String) : Step env.Img :=
  if pyStartsWith s "data:image" then
    match splitFirstComma s with
    | none => .exn "not enough values to unpack (expected 2, got 1)"
    | some p => Step.bind (env.b64decode p.2) env.openBytes
  else if pyStartsWith s "/" || pyStartsWith s "./" then
    env.openFile s
  else
    Step.bind (env.b64decode s) env.openBytes

/-- The L2 norm used by both branches (`image_features.norm(dim=-1)`
and `np.linalg.norm`). -/
noncomputable def l2norm (v : Fin 1024 → ℝ) : ℝ := Real.sqrt (∑ i, v i ^ 2)

/-- Division of a feature vector by its own L2 norm (lines 81
and 102). -/
noncomputable def normalizeVec (v : Fin 1024 → ℝ) : Fin 1024 → ℝ :=
  fun i => v i / l2norm v

/-- The success dictionary of `generate_embedding`: the vector, its
`dimensions` field and the `model` label. -/
structure EmbedOk where
  embedding : List ℝ
  dimensions : Nat
  model : String

/-- Result dictionary of `OpenCLIPEmbedder.generate_embedding`. -/
inductive EmbedResult where
  | ok (payload : EmbedOk)
  | error (msg : String)

/-- Embeds `OpenCLIPEmbedder.generate_embedding` (lines 48–111 of
`openclip_embeddings.py`).  `fallback` is the instance flag set at
initialization.  The incoming numpy RNG state is threaded explicitly;
the fallback branch reseeds it from the image-content hash before
drawing.  The whole body sits in a `try`/`except Exception` block, so
decode failures become `{"error": ...}` records. -/
noncomputable def generate_embedding (env : CLIPEnv) (fallback : Bool) (s : String)
    (rng : env.Rng) : EmbedResult × env.Rng :=
  match load_image env s with
  | .exn m => (.error ("Failed to generate embedding: " ++ m), rng)
  | .ok image =>
    if fallback = false then
      let embedding := List.ofFn (normalizeVec (env.encode image))
      (.ok ⟨embedding, embedding.length, "OpenCLIP ViT-H/14"⟩, rng)
    else
      let rng1 := env.seed (env.md5seedOf (env.resizedBytes image))
      let draw := env.normal1024 rng1
      (.ok ⟨List.ofFn (normalizeVec draw.1), 1024,
        "Fallback 1024D (install open-clip-torch for real OpenCLIP)"⟩, draw.2)

/-- Embeds `main` of `openclip_embeddings.py` plus the module-level import
guard (lines 13–17 and 113–121).  `pil_available` is the PIL import
guard, `openclip_available` the open_clip/torch import guard,
`model_load` the outcome of `open_clip.create_model_and_transforms`
when attempted.  Returns the JSON document printed and the process
exit code. -/
noncomputable def embed_main (env : CLIPEnv) (pil_available openclip_available : Bool)
    (model_load : Step Unit) (argv : List String) (rng : env.Rng) :
    EmbedResult × Nat :=
  if pil_available = false then
    (.error "PIL/Pillow not installed", 1)
  else if argv.length ≠ 2 then
    (.error "Usage: python openclip_embeddings.py <image_path_or_base64>", 1)
  else if openclip_available then
    match model_load with
    | .exn m => (.error ("Failed to load OpenCLIP model: " ++ m), 1)
    | .ok _ => ((generate_embedding env false (argv.getD 1 "") rng).1, 0)
  else
    ((generate_embedding env true (argv.getD 1 "") rng).1, 0)

/-! ### Concrete oracle environments used by the witness theorems -/

/-- A per-file environment whose image load fails. -/
def envUnreadable : DepthEnv := ⟨none, Step.exn "x", Step.ok ()⟩

/-- A concrete run of the depth tool on a readable 640×480 image with
a one-pixel raw prediction and a successful save. -/
def envD9 : DepthMainEnv :=
  ⟨Step.ok (), ⟨some (480, 640), Step.ok [(0 : ℚ)], Step.ok ()⟩,
   false, [], fun _ => envUnreadable, ⟨none, [], Step.ok ()⟩⟩

/-- A concrete embedding-tool oracle bundle: decoding always succeeds,
the model features and the pseudo-random draw are the constant-one
vector (whose norm is nonzero). -/
noncomputable def envW : CLIPEnv where
  Img := Unit
  b64decode := fun _ => Step.ok []
  openBytes := fun _ => Step.ok ()
  openFile := fun _ => Step.ok ()
  encode := fun _ _ => 1
  resizedBytes := fun _ => []
  md5seedOf := fun _ => 0
  Rng := Unit
  seed := fun _ => ()
  normal1024 := fun _ => (fun _ => 1, ())

/-! ## Theorems -/

/-- A `uint8` cast always lands in `[0, 255]`. -/
lemma toUint8_le (x : ℚ) : toUint8 x ≤ 255 := by
  unfold toUint8
  have h1 : (0 : ℤ) ≤ truncQ x % 256 := Int.emod_nonneg _ (by norm_num)
  have h2 : truncQ x % 256 < 256 := Int.emod_lt_of_pos _ (by norm_num)
  omega

lemma toUint8_zero : toUint8 0 = 0 := by decide

/-- Every pixel produced by the normalization step is at most 255. -/
lemma normalize_depth_le (l : List ℚ) : ∀ p ∈ normalize_depth l, p ≤ 255 := by
  intro p hp
  unfold normalize_depth at hp
  rcases List.mem_map.mp hp with ⟨x, _, rfl⟩
  exact toUint8_le _

/-- When the raw prediction's maximum equals its minimum, the
normalization branch replaces the array by zeros. -/
lemma normalize_depth_const (l : List ℚ) (h : listMax l = listMin l) :
    ∀ p ∈ normalize_depth l, p = 0 := by
  intro p hp
  simp only [normalize_depth, h] at hp
  rw [if_neg (lt_irrefl _)] at hp
  rcases List.mem_map.mp hp with ⟨x, hx, rfl⟩
  rcases List.mem_map.mp hx with ⟨y, _, rfl⟩
  simpa using toUint8_zero

/-- C1: every pixel of a depth map written by the single-image
operation lies within [0, 255] (the payload is a natural number, so
the lower bound is inherent in its type), and when the raw model
output has its maximum equal to its minimum the written depth map is
uniformly zero — the code takes the `np.zeros_like` branch instead of
dividing by zero. -/
theorem c1_depth_pixels_bounded_and_const_zero (env : DepthEnv)
    (input output : String) (raw : List ℚ) (hraw : env.modelRun = Step.ok raw)
    (sf : SavedFile) (hsf : sf ∈ (generate_depth_map env input output).2) :
    (∀ p ∈ sf.pixels, p ≤ 255) ∧
    (listMax raw = listMin raw → ∀ p ∈ sf.pixels, p = 0) := by
  rcases env with ⟨imread, modelRun, save⟩
  simp only at hraw
  subst hraw
  unfold generate_depth_map at hsf
  cases imread with
  | none => simp at hsf
  | some hw =>
    rcases hw with ⟨h, w⟩
    simp only at hsf
    by_cases hemp : raw.isEmpty
    · simp [hemp] at hsf
    · rw [if_neg hemp] at hsf
      by_cases hdir : dirnameEmpty output = true
      · rw [if_pos hdir] at hsf
        simp at hsf
      · rw [if_neg hdir] at hsf
        cases save with
        | exn m => simp at hsf
        | ok u =>
          simp only [List.mem_singleton] at hsf
          subst hsf
          exact ⟨normalize_depth_le raw, fun hc => normalize_depth_const raw hc⟩

/-- Witness for C1 at a concrete run: a constant raw prediction
`[5, 5]` over a 1×2 image, written to `d/o.png`, yields the all-zero
depth map. -/
theorem c1_witness :
    (∀ p ∈ (SavedFile.mk "d/o.png" 2 1 "L" "PNG" [0, 0]).pixels, p ≤ 255) ∧
    (listMax [(5 : ℚ), 5] = listMin [(5 : ℚ), 5] →
      ∀ p ∈ (SavedFile.mk "d/o.png" 2 1 "L" "PNG" [0, 0]).pixels, p = 0) :=
  c1_depth_pixels_bounded_and_const_zero
    ⟨some (1, 2), Step.ok [(5 : ℚ), 5], Step.ok ()⟩ "i" "d/o.png" [(5 : ℚ), 5] rfl
    ⟨"d/o.png", 2, 1, "L", "PNG", [0, 0]⟩
    (by simp [generate_depth_map, normalize_depth, listMin, listMax, toUint8, truncQ,
      List.foldl, show dirnameEmpty "d/o.png" = false from rfl])

lemma len_append_pos (a b : String) (h : 0 < a.length) : 0 < (a ++ b).length := by
  rw [String.length_append]; omega

/-- C5: `generate_depth_map` never propagates an exception to its
caller — for every combination of oracle outcomes it returns either
the success dictionary or an error dictionary whose message is
nonempty.  (Totality of the Lean function mirrors the
`try`/`except Exception` block enclosing the whole body.) -/
theorem c5_depth_single_always_structured (env : DepthEnv) (input output : String) :
    (∃ a b, (generate_depth_map env input output).1 =
      SingleResult.success input output a b "MiDaS DPT-Hybrid") ∨
    (∃ m, (generate_depth_map env input output).1 = SingleResult.error m ∧
      0 < m.length) := by
  rcases env with ⟨imread, modelRun, save⟩
  unfold generate_depth_map
  simp only
  cases imread with
  | none => exact Or.inr ⟨_, rfl, len_append_pos _ _ (by decide)⟩
  | some hw =>
    rcases hw with ⟨h, w⟩
    cases modelRun with
    | exn m => exact Or.inr ⟨_, rfl, len_append_pos _ _ (by decide)⟩
    | ok raw =>
      dsimp only
      by_cases hemp : raw.isEmpty = true
      · rw [if_pos hemp]
        exact Or.inr ⟨_, rfl, len_append_pos _ _ (by decide)⟩
      · rw [if_neg hemp]
        by_cases hdir : dirnameEmpty output = true
        · rw [if_pos hdir]
          exact Or.inr ⟨_, rfl, len_append_pos _ _ (by decide)⟩
        · rw [if_neg hdir]
          cases save with
          | exn m => exact Or.inr ⟨_, rfl, len_append_pos _ _ (by decide)⟩
          | ok u => exact Or.inl ⟨_, _, rfl⟩

/-- C3: on an existing directory holding at least one file with a
recognized image extension, `process_batch` produces one
`batch_results` entry per recognized file (unrecognized files are
skipped), `total_processed` is the number of entries, and
`success_count` counts exactly the entries whose per-file result is a
success. -/
theorem c3_batch_counts (listing : List DirEntry) (envOf : DirEntry → DepthEnv)
    (din dout : String) (hN : 0 < listing.countP isImageFile) :
    ∃ entries total succ writes,
      process_batch true listing envOf din dout =
        (BatchResult.report entries total succ, writes) ∧
      total = entries.length ∧
      entries.length = listing.countP isImageFile ∧
      entries.map Prod.fst = (listing.filter isImageFile).map DirEntry.name ∧
      succ = entries.countP (fun e => isSuccessResult e.2) := by
  have hne : ¬((listing.filter isImageFile).isEmpty = true) := by
    rw [List.countP_eq_length_filter] at hN
    rcases hfe : listing.filter isImageFile with _ | ⟨a, as⟩
    · rw [hfe] at hN; simp at hN
    · simp
  unfold process_batch
  rw [if_neg (by simp)]
  simp only
  rw [if_neg hne]
  refine ⟨_, _, _, _, rfl, ?_, ?_, ?_, ?_⟩
  · simp
  · simp [List.countP_eq_length_filter]
  · simp only [List.map_map]
    rfl
  · simp only [List.map_map, List.countP_map]
    rfl

/-- Witness for C3: a directory with one `.png` file and one `.txt`
file yields exactly one batch entry. -/
theorem c3_witness :
    ∃ entries total succ writes,
      process_batch true [⟨"a", ".png"⟩, ⟨"b", ".txt"⟩] (fun _ => envUnreadable)
          "in" "out" =
        (BatchResult.report entries total succ, writes) ∧
      total = entries.length ∧
      entries.length = [DirEntry.mk "a" ".png", DirEntry.mk "b" ".txt"].countP isImageFile ∧
      entries.map Prod.fst =
        ([DirEntry.mk "a" ".png", DirEntry.mk "b" ".txt"].filter isImageFile).map DirEntry.name ∧
      succ = entries.countP (fun e => isSuccessResult e.2) :=
  c3_batch_counts [⟨"a", ".png"⟩, ⟨"b", ".txt"⟩] (fun _ => envUnreadable) "in" "out"
    (by decide)

/-- C4: `process_batch` on a nonexistent directory, or on a directory
with no recognized image extension, returns a structured error with a
nonempty message, does not raise (the Lean embedding is a total
function), and writes no output file. -/
theorem c4_batch_error_no_writes (dirExists : Bool) (listing : List DirEntry)
    (envOf : DirEntry → DepthEnv) (din dout : String)
    (h : dirExists = false ∨ listing.filter isImageFile = []) :
    ∃ m, process_batch dirExists listing envOf din dout =
        (BatchResult.error m, []) ∧ 0 < m.length := by
  unfold process_batch
  rcases h with h | h
  · rw [if_pos h]
    exact ⟨_, rfl, len_append_pos _ _ (by decide)⟩
  · cases dirExists with
    | false => rw [if_pos rfl]; exact ⟨_, rfl, len_append_pos _ _ (by decide)⟩
    | true =>
      rw [if_neg (by simp)]
      simp only [h]
      refine ⟨"No image files found in input directory", by simp, by decide⟩

/-- Witness for C4 at a nonexistent directory. -/
theorem c4_witness :
    ∃ m, process_batch false [] (fun _ => envUnreadable) "d" "o" =
        (BatchResult.error m, []) ∧ 0 < m.length :=
  c4_batch_error_no_writes false [] (fun _ => envUnreadable) "d" "o" (Or.inl rfl)

/-- C9 (code bug): at the claim's exact invocation — single-image
mode with `--input chart.png --output depth.png` — the run can never
succeed.  Line 96 of `midas_depth.py` executes
`os.makedirs(os.path.dirname("depth.png"), exist_ok=True)`, that is
`os.makedirs("")`, which deterministically raises `FileNotFoundError`;
the enclosing handler converts it to an error record.  The theorem
evaluates the embedded program at that input: even with the image
loading as 640×480, the model run succeeding, and an arbitrary save
oracle (quantified — it is never consulted), the tool prints the
makedirs error dictionary, writes no file, and exits 0, contrary to
the claim's asserted success. -/
theorem c9_bare_output_always_errors (s : Step Unit) :
    depth_main true ⟨"chart.png", some "depth.png", false⟩
      ⟨Step.ok (), ⟨some (480, 640), Step.ok [(0 : ℚ)], s⟩, false, [],
        fun _ => envUnreadable, ⟨none, [], Step.ok ()⟩⟩ =
      (MainResult.single (SingleResult.error ("Depth map generation failed: " ++
        "[Errno 2] No such file or directory: ''")), [], 0) := rfl

/-- C10: when the model dependency chain is unavailable, invoking the
depth tool with `--batch` yields exactly the structured error
`Batch mode not supported in fallback mode`, writes no file, and exits
with status zero — single-image fallback exists, directory batch
processing does not. -/
theorem c10_fallback_batch_unsupported (args : DepthArgs) (env : DepthMainEnv)
    (hb : args.batch = true) :
    depth_main false args env =
      (MainResult.error "Batch mode not supported in fallback mode", [], 0) := by
  obtain ⟨i, o, b⟩ := args
  simp only at hb
  subst hb
  simp [depth_main]

/-- Witness for C10 at a concrete invocation. -/
theorem c10_witness :
    depth_main false ⟨"d", none, true⟩ envD9 =
      (MainResult.error "Batch mode not supported in fallback mode", [], 0) :=
  c10_fallback_batch_unsupported ⟨"d", none, true⟩ envD9 rfl

lemma sumSq_normalizeVec (v : Fin 1024 → ℝ) (h : (∑ i, v i ^ 2) ≠ 0) :
    (∑ i, normalizeVec v i ^ 2) = 1 := by
  unfold normalizeVec l2norm
  have hnn : 0 ≤ ∑ i, v i ^ 2 := Finset.sum_nonneg fun i _ => sq_nonneg _
  simp only [div_pow]
  rw [← Finset.sum_div, Real.sq_sqrt hnn, div_self h]

lemma listSumSq_ofFn (f : Fin 1024 → ℝ) :
    ((List.ofFn f).map (fun x => x ^ 2)).sum = ∑ i, f i ^ 2 := by
  rw [List.map_ofFn, List.sum_ofFn]
  simp [Function.comp]

/-- C2: whenever `generate_embedding` returns a success payload — in
real-model mode or in fallback mode — the embedding has exactly 1024
elements, its `dimensions` field is 1024, and its L2 norm is 1 (stated
as the sum of squares being 1, which for a nonnegative norm is
equivalent; the real-valued embedding idealizes the floating-point
arithmetic, whence the claim's tolerance qualifier).  The hypotheses
say the oracle feature vectors are not identically zero, the
real-arithmetic counterpart of the norm being a valid divisor. -/
theorem c2_embedding_length_and_unit_norm (env : CLIPEnv)
    (h1 : ∀ img : env.Img, (∑ i, env.encode img i ^ 2) ≠ 0)
    (h2 : ∀ r : env.Rng, (∑ i, (env.normal1024 r).1 i ^ 2) ≠ 0)
    (fallback : Bool) (s : String) (rng rng2 : env.Rng) (payload : EmbedOk)
    (heq : generate_embedding env fallback s rng = (EmbedResult.ok payload, rng2)) :
    payload.embedding.length = 1024 ∧
    (payload.embedding.map (fun x => x ^ 2)).sum = 1 ∧
    payload.dimensions = 1024 := by
  obtain ⟨emb, dims, mdl⟩ := payload
  unfold generate_embedding at heq
  cases hl : load_image env s with
  | exn m => rw [hl] at heq; simp at heq
  | ok img =>
    rw [hl] at heq
    dsimp only at heq
    cases fallback with
    | false =>
      rw [if_pos rfl] at heq
      simp only [Prod.mk.injEq, EmbedResult.ok.injEq, EmbedOk.mk.injEq] at heq
      obtain ⟨⟨he, hd, -⟩, -⟩ := heq
      dsimp only
      rw [← he, ← hd]
      refine ⟨List.length_ofFn _, ?_, List.length_ofFn _⟩
      rw [listSumSq_ofFn]
      exact sumSq_normalizeVec _ (h1 img)
    | true =>
      rw [if_neg (by simp)] at heq
      simp only [Prod.mk.injEq, EmbedResult.ok.injEq, EmbedOk.mk.injEq] at heq
      obtain ⟨⟨he, hd, -⟩, -⟩ := heq
      dsimp only
      rw [← he, ← hd]
      refine ⟨List.length_ofFn _, ?_, rfl⟩
      rw [listSumSq_ofFn]
      exact sumSq_normalizeVec _ (h2 _)

lemma sum_one_sq_ne_zero : (∑ _i : Fin 1024, (1 : ℝ) ^ 2) ≠ 0 := by
  simp only [one_pow]
  rw [Finset.sum_const, Finset.card_univ, Fintype.card_fin, nsmul_eq_mul, mul_one]
  norm_num

/-- Witness for C2 in fallback mode at the constant-one oracle. -/
theorem c2_witness :
    (EmbedOk.mk (List.ofFn (normalizeVec (fun _ : Fin 1024 => (1 : ℝ)))) 1024
      "Fallback 1024D (install open-clip-torch for real OpenCLIP)").embedding.length
        = 1024 ∧
    ((EmbedOk.mk (List.ofFn (normalizeVec (fun _ : Fin 1024 => (1 : ℝ)))) 1024
      "Fallback 1024D (install open-clip-torch for real OpenCLIP)").embedding.map
        (fun x => x ^ 2)).sum = 1 ∧
    (EmbedOk.mk (List.ofFn (normalizeVec (fun _ : Fin 1024 => (1 : ℝ)))) 1024
      "Fallback 1024D (install open-clip-torch for real OpenCLIP)").dimensions
        = 1024 :=
  c2_embedding_length_and_unit_norm envW (fun _ => sum_one_sq_ne_zero)
    (fun _ => sum_one_sq_ne_zero) true "x" () ()
    ⟨List.ofFn (normalizeVec (fun _ : Fin 1024 => (1 : ℝ))), 1024,
      "Fallback 1024D (install open-clip-torch for real OpenCLIP)"⟩ rfl

/-- C6: the input dispatch of `generate_embedding`.  An input starting
with `data:image` is split at its first comma and its payload decoded
as base64 (raising when there is no comma); an input recognized by the
leading path markers `/` or `./` is opened as a filesystem path; every
other input — including a relative filesystem path such as
`images/chart.png` that lacks a leading marker — is decoded as raw
base64, not opened as a path. -/
theorem c6_input_dispatch (env : CLIPEnv) (s : String) :
    (pyStartsWith s "data:image" = true →
      ∀ hd enc, splitFirstComma s = some (hd, enc) →
        load_image env s = Step.bind (env.b64decode enc) env.openBytes) ∧
    (pyStartsWith s "data:image" = true → splitFirstComma s = none →
      load_image env s =
        Step.exn "not enough values to unpack (expected 2, got 1)") ∧
    (pyStartsWith s "data:image" = false →
      (pyStartsWith s "/" = true ∨ pyStartsWith s "./" = true) →
      load_image env s = env.openFile s) ∧
    (pyStartsWith s "data:image" = false → pyStartsWith s "/" = false →
      pyStartsWith s "./" = false →
      load_image env s = Step.bind (env.b64decode s) env.openBytes) := by
  refine ⟨?_, ?_, ?_, ?_⟩
  · intro h hd enc hsp
    simp [load_image, h, hsp]
  · intro h hsp
    simp [load_image, h, hsp]
  · intro h1 h2
    rcases h2 with h2 | h2 <;> simp [load_image, h1, h2]
  · intro h1 h2 h3
    simp [load_image, h1, h2, h3]

/-- Witness for C6: `images/chart.png` (a filesystem path with no
leading marker) is routed to the raw-base64 branch, `/tmp/a.png` to
the path branch, and a `data:image` URL to the data-URL branch. -/
theorem c6_witness :
    load_image envW "images/chart.png" =
      Step.bind (envW.b64decode "images/chart.png") envW.openBytes ∧
    load_image envW "/tmp/a.png" = envW.openFile "/tmp/a.png" ∧
    load_image envW "data:image/png;base64,QUJD" =
      Step.bind (envW.b64decode "QUJD") envW.openBytes :=
  ⟨(c6_input_dispatch envW "images/chart.png").2.2.2 rfl rfl rfl,
   (c6_input_dispatch envW "/tmp/a.png").2.2.1 rfl (Or.inl rfl),
   (c6_input_dispatch envW "data:image/png;base64,QUJD").1 rfl
     "data:image/png;base64" "QUJD" rfl⟩

/-- C7: the fallback embedding is a function of the decoded image
content alone.  The incoming state of numpy's global pseudo-random
generator is irrelevant because the code reseeds it from the
content hash before drawing, so any two invocations of
`generate_embedding` in fallback mode on the same input — in
particular two sequential invocations on byte-identical image
content — print the identical result. -/
theorem c7_fallback_deterministic (env : CLIPEnv) (s : String) (r r' : env.Rng) :
    (generate_embedding env true s r).1 = (generate_embedding env true s r').1 := by
  unfold generate_embedding
  cases hl : load_image env s <;> rfl

/-- C8 counterexample: with the image library present, the open_clip
chain absent, and two arguments supplied (`argv` of length three), the
embedding tool still exits non-zero — the usage check fires on any
argument count other than one, contradicting the claim that a non-zero
exit happens exactly when no argument is supplied or the image library
is missing. -/
theorem c8_counterexample :
    (embed_main envW true false (Step.ok ()) ["prog", "a", "b"] ()).2 = 1 ∧
    (["prog", "a", "b"].drop 1 ≠ []) := by
  constructor
  · rfl
  · decide

/-- C8 amended: when the image library is present, exactly one
argument is supplied, and the mode is resolved (fallback, or a
successful model load), the tool prints the result of
`generate_embedding` — so a malformed base64 payload or a nonexistent
path yields that structured error — and exits zero; every error
message of `generate_embedding` is nonempty; and the exit code is
non-zero exactly when the image library is missing, the argument count
differs from one, or the open_clip chain is present but the model load
fails. -/
theorem c8_exit_and_error_amended (env : CLIPEnv) (pil oc : Bool) (ml : Step Unit)
    (argv : List String) (rng : env.Rng) :
    (pil = true → argv.length = 2 → (oc = false ∨ ml = Step.ok ()) →
      embed_main env pil oc ml argv rng =
        ((generate_embedding env (!oc) (argv.getD 1 "") rng).1, 0)) ∧
    (∀ fb s m, (generate_embedding env fb s rng).1 = EmbedResult.error m →
      0 < m.length) ∧
    ((embed_main env pil oc ml argv rng).2 ≠ 0 ↔
      (pil = false ∨ argv.length ≠ 2 ∨ (oc = true ∧ ∃ m, ml = Step.exn m))) := by
  refine ⟨?_, ?_, ?_⟩
  · intro hp ha ho
    subst hp
    cases oc with
    | false => simp [embed_main, ha]
    | true =>
      rcases ho with ho | ho
      · exact absurd ho (by simp)
      · subst ho
        simp [embed_main, ha]
  · intro fb s m h
    unfold generate_embedding at h
    cases hl : load_image env s with
    | exn msg =>
      rw [hl] at h
      dsimp only at h
      rw [EmbedResult.error.injEq] at h
      rw [← h]
      exact len_append_pos _ _ (by decide)
    | ok img =>
      rw [hl] at h
      dsimp only at h
      cases fb with
      | false => rw [if_pos rfl] at h; exact EmbedResult.noConfusion h
      | true => rw [if_neg (by simp)] at h; exact EmbedResult.noConfusion h
  · cases pil with
    | false => simp [embed_main]
    | true =>
      by_cases ha : argv.length = 2
      · cases oc with
        | false => simp [embed_main, ha]
        | true =>
          cases ml with
          | ok u => cases u; simp [embed_main, ha]
          | exn m => simp [embed_main, ha]
      · simp [embed_main, ha]

/-- Witness for the amended C8 at a concrete fallback invocation. -/
theorem c8_witness :
    embed_main envW true false (Step.ok ()) ["p", "x"] () =
      ((generate_embedding envW (!false) (["p", "x"].getD 1 "") ()).1, 0) :=
  (c8_exit_and_error_amended envW true false (Step.ok ()) ["p", "x"] ()).1
    rfl rfl (Or.inl rfl)

end AnalysisApp
